import Mathlib

/-!
Verification of the crabbux ledger core (src/accounts.rs, src/errors.rs,
src/tx.rs). The HashMap String u64 of account balances is embedded as a
lookup function from account name to an optional Nat; u64 arithmetic is
Nat arithmetic with explicit overflow checks against 2 to the 64 minus 1.
The unwrap inside Accounts::send is modelled with an Option layer: a
result of none stands for a panic of the Rust code.
-/

/-- Largest value of the u64 balance type. -/
def u64Max : Nat := 2 ^ 64 - 1

/-- Rust u64 checked_add: some of the sum when it fits in u64, else none. -/
def checkedAdd (a b : Nat) : Option Nat :=
  if a + b ≤ u64Max then some (a + b) else none

/-- Rust u64 checked_sub: some of the difference when no underflow, else none. -/
def checkedSub (a b : Nat) : Option Nat :=
  if b ≤ a then some (a - b) else none

/-- The transaction record type of tx.rs. -/
inductive Tx where
  | Deposit (account : String) (amount : Nat)
  | Withdraw (account : String) (amount : Nat)
  deriving DecidableEq

/-- The error type of errors.rs. -/
inductive ApplicationError where
  | NotFound (account : String)
  | UnderFunded (account : String) (amount : Nat)
  | OverFunded (account : String) (amount : Nat)
  deriving DecidableEq

/-- Pointwise update of a lookup function, the effect of HashMap insert and
    of writing through get_mut. -/
def mapInsert (f : String → Option Nat) (k : String) (v : Nat) : String → Option Nat :=
  fun x => if x = k then some v else f x

/-- The Accounts struct of accounts.rs: it owns the account to balance map. -/
structure Accounts where
  accounts : String → Option Nat

/-- Accounts::new, the empty ledger. -/
def Accounts.new : Accounts := ⟨fun _ => none⟩

/-- HashMap insert on the wrapped map, as used by Accounts and its tests. -/
def Accounts.insert (self : Accounts) (k : String) (v : Nat) : Accounts :=
  ⟨mapInsert self.accounts k v⟩

/-- Accounts::deposit, translated from accounts.rs lines 42 to 60. -/
def Accounts.deposit (self : Accounts) (signer : String) (amount : Nat) :
    Except ApplicationError Tx × Accounts :=
  match self.accounts signer with
  | some account =>
    match checkedAdd account amount with
    | some r => (Except.ok (Tx.Deposit signer amount), self.insert signer r)
    | none => (Except.error (ApplicationError.OverFunded signer amount), self)
  | none => (Except.ok (Tx.Deposit signer amount), self.insert signer amount)

/-- Accounts::withdraw, translated from accounts.rs lines 65 to 78. -/
def Accounts.withdraw (self : Accounts) (signer : String) (amount : Nat) :
    Except ApplicationError Tx × Accounts :=
  match self.accounts signer with
  | some bal =>
    match checkedSub bal amount with
    | some r => (Except.ok (Tx.Withdraw signer amount), self.insert signer r)
    | none => (Except.error (ApplicationError.UnderFunded signer amount), self)
  | none => (Except.error (ApplicationError.NotFound signer), self)

/-- Accounts::send, translated from accounts.rs lines 84 to 108. The
    lookup with unwrap on the rollback path is modelled by matching on the
    entry of the sender: none stands for the panic of unwrap. -/
def Accounts.send (self : Accounts) (sender recipient : String) (amount : Nat) :
    Option (Except ApplicationError (Tx × Tx) × Accounts) :=
  match self.accounts sender with
  | none => some (Except.error (ApplicationError.NotFound sender), self)
  | some sender_previous_balance =>
    match self.withdraw sender amount with
    | (Except.ok withdrawal_tx, m1) =>
      match m1.deposit recipient amount with
      | (Except.ok deposit_tx, m2) => some (Except.ok (withdrawal_tx, deposit_tx), m2)
      | (Except.error (ApplicationError.OverFunded account amt), m2) =>
        match m2.accounts sender with
        | some _ =>
            some (Except.error (ApplicationError.OverFunded account amt),
              m2.insert sender sender_previous_balance)
        | none => none
      | (Except.error e, m2) => some (Except.error e, m2)
    | (Except.error e, m1) => some (Except.error e, m1)

/-! Helper lemmas characterising each branch of the three operations. -/

theorem mapInsert_self (f : String → Option Nat) (k : String) (v : Nat) :
    mapInsert f k v k = some v := by
  simp [mapInsert]

theorem mapInsert_other (f : String → Option Nat) (k x : String) (v : Nat)
    (h : x ≠ k) : mapInsert f k v x = f x := by
  simp [mapInsert, h]

theorem deposit_absent (m : Accounts) (s : String) (a : Nat)
    (h : m.accounts s = none) :
    m.deposit s a = (Except.ok (Tx.Deposit s a), m.insert s a) := by
  simp [Accounts.deposit, h]

theorem deposit_ok (m : Accounts) (s : String) (b a : Nat)
    (h : m.accounts s = some b) (hle : b + a ≤ u64Max) :
    m.deposit s a = (Except.ok (Tx.Deposit s a), m.insert s (b + a)) := by
  simp [Accounts.deposit, h, checkedAdd, hle]

theorem deposit_overflow_eq (m : Accounts) (s : String) (b a : Nat)
    (h : m.accounts s = some b) (hgt : u64Max < b + a) :
    m.deposit s a = (Except.error (ApplicationError.OverFunded s a), m) := by
  simp [Accounts.deposit, h, checkedAdd, Nat.not_le.mpr hgt]

theorem withdraw_notfound (m : Accounts) (s : String) (a : Nat)
    (h : m.accounts s = none) :
    m.withdraw s a = (Except.error (ApplicationError.NotFound s), m) := by
  simp [Accounts.withdraw, h]

theorem withdraw_ok (m : Accounts) (s : String) (b a : Nat)
    (h : m.accounts s = some b) (hle : a ≤ b) :
    m.withdraw s a = (Except.ok (Tx.Withdraw s a), m.insert s (b - a)) := by
  simp [Accounts.withdraw, h, checkedSub, hle]

theorem withdraw_underflow_eq (m : Accounts) (s : String) (b a : Nat)
    (h : m.accounts s = some b) (hgt : b < a) :
    m.withdraw s a = (Except.error (ApplicationError.UnderFunded s a), m) := by
  simp [Accounts.withdraw, h, checkedSub, Nat.not_le.mpr hgt]

/-- Inversion for a failed deposit: the error is always OverFunded with the
    attempted amount, the account exists with an overflowing balance, and
    the map is returned untouched. -/
theorem deposit_error_inv (m : Accounts) (s : String) (a : Nat)
    (e : ApplicationError) (h : (m.deposit s a).1 = Except.error e) :
    e = ApplicationError.OverFunded s a
      ∧ (∃ b, m.accounts s = some b ∧ u64Max < b + a)
      ∧ (m.deposit s a).2 = m := by
  rcases hms : m.accounts s with _ | b
  · rw [deposit_absent m s a hms] at h
    exact absurd h (by simp)
  · by_cases hle : b + a ≤ u64Max
    · rw [deposit_ok m s b a hms hle] at h
      exact absurd h (by simp)
    · have hgt := Nat.not_le.mp hle
      rw [deposit_overflow_eq m s b a hms hgt] at h
      refine ⟨by simpa using h.symm, ⟨b, rfl, hgt⟩, ?_⟩
      rw [deposit_overflow_eq m s b a hms hgt]

/-- Inversion for a successful withdraw: the account exists with enough
    balance, the record names the signer and the amount, and the new map
    only lowers the signer entry. -/
theorem withdraw_ok_inv (m : Accounts) (s : String) (a : Nat) (t : Tx)
    (h : (m.withdraw s a).1 = Except.ok t) :
    ∃ b, m.accounts s = some b ∧ a ≤ b
      ∧ m.withdraw s a = (Except.ok (Tx.Withdraw s a), m.insert s (b - a)) := by
  rcases hms : m.accounts s with _ | b
  · rw [withdraw_notfound m s a hms] at h
    exact absurd h (by simp)
  · by_cases hle : a ≤ b
    · exact ⟨b, rfl, hle, withdraw_ok m s b a hms hle⟩
    · have hgt := Nat.not_le.mp hle
      rw [withdraw_underflow_eq m s b a hms hgt] at h
      exact absurd h (by simp)

theorem insert_accounts (m : Accounts) (k x : String) (v : Nat) :
    (m.insert k v).accounts x = if x = k then some v else m.accounts x := rfl

theorem send_notfound (m : Accounts) (S R : String) (a : Nat)
    (h : m.accounts S = none) :
    m.send S R a = some (Except.error (ApplicationError.NotFound S), m) := by
  simp [Accounts.send, h]

theorem send_withdraw_underflow_eq (m : Accounts) (S R : String) (a b : Nat)
    (hS : m.accounts S = some b) (hlt : b < a) :
    m.send S R a = some (Except.error (ApplicationError.UnderFunded S a), m) := by
  simp [Accounts.send, hS, withdraw_underflow_eq m S b a hS hlt]

theorem send_deposit_ok_eq (m : Accounts) (S R : String) (a b : Nat)
    (hS : m.accounts S = some b) (hle : a ≤ b) (dtx : Tx) (m2 : Accounts)
    (hd : (m.insert S (b - a)).deposit R a = (Except.ok dtx, m2)) :
    m.send S R a = some (Except.ok (Tx.Withdraw S a, dtx), m2) := by
  simp [Accounts.send, hS, withdraw_ok m S b a hS hle, hd]

theorem send_rollback_eq (m : Accounts) (S R : String) (a b c : Nat)
    (hS : m.accounts S = some b) (hle : a ≤ b)
    (hR : (m.insert S (b - a)).accounts R = some c) (hov : u64Max < c + a) :
    m.send S R a = some (Except.error (ApplicationError.OverFunded R a),
      (m.insert S (b - a)).insert S b) := by
  have hd := deposit_overflow_eq (m.insert S (b - a)) R c a hR hov
  have hsS : (m.insert S (b - a)).accounts S = some (b - a) := by
    simp [Accounts.insert, mapInsert]
  simp [Accounts.send, hS, withdraw_ok m S b a hS hle, hd, hsS]

/-! Claim theorems. -/

/-- C5: a deposit of a into an existing account A with balance b, when
    b + a fits in u64, sets the balance of A to b + a, returns the record
    Deposit A a, and changes the entry of no other account. -/
theorem c5_deposit_success (m : Accounts) (A : String) (b a : Nat)
    (hA : m.accounts A = some b) (hfit : b + a ≤ u64Max) :
    (m.deposit A a).1 = Except.ok (Tx.Deposit A a)
      ∧ ((m.deposit A a).2).accounts A = some (b + a)
      ∧ ∀ x, x ≠ A → ((m.deposit A a).2).accounts x = m.accounts x := by
  rw [deposit_ok m A b a hA hfit]
  refine ⟨rfl, by simp [Accounts.insert, mapInsert], ?_⟩
  intro x hx
  simp [Accounts.insert, mapInsert, hx]

theorem c5_witness :
    (((Accounts.new.insert "bob" 0).deposit "bob" 100).1
        = Except.ok (Tx.Deposit "bob" 100))
      ∧ (((Accounts.new.insert "bob" 0).deposit "bob" 100).2).accounts "bob"
        = some (0 + 100) :=
  ⟨(c5_deposit_success (Accounts.new.insert "bob" 0) "bob" 0 100 (by decide)
      (by decide)).1,
   (c5_deposit_success (Accounts.new.insert "bob" 0) "bob" 0 100 (by decide)
      (by decide)).2.1⟩

/-- C6: a deposit of a into an existing account A with balance b, when
    b + a overflows u64, leaves the whole map and in particular the balance
    of A untouched and returns OverFunded A a, the error carrying the
    attempted amount a. -/
theorem c6_deposit_overflow (m : Accounts) (A : String) (b a : Nat)
    (hA : m.accounts A = some b) (hov : u64Max < b + a) :
    m.deposit A a = (Except.error (ApplicationError.OverFunded A a), m)
      ∧ ((m.deposit A a).2).accounts A = some b := by
  have h := deposit_overflow_eq m A b a hA hov
  exact ⟨h, by rw [h]; exact hA⟩

theorem c6_witness :
    ((Accounts.new.insert "test_account" 50).deposit "test_account" u64Max
        = (Except.error (ApplicationError.OverFunded "test_account" u64Max),
           Accounts.new.insert "test_account" 50))
      ∧ (((Accounts.new.insert "test_account" 50).deposit "test_account"
          u64Max).2).accounts "test_account" = some 50 :=
  c6_deposit_overflow (Accounts.new.insert "test_account" 50) "test_account"
    50 u64Max (by decide) (by decide)

/-- C7: a deposit of a into an account A with no entry always succeeds,
    creates the entry with balance exactly a, returns Deposit A a, and
    changes the entry of no other account. -/
theorem c7_deposit_new_account (m : Accounts) (A : String) (a : Nat)
    (hA : m.accounts A = none) :
    (m.deposit A a).1 = Except.ok (Tx.Deposit A a)
      ∧ ((m.deposit A a).2).accounts A = some a
      ∧ ∀ x, x ≠ A → ((m.deposit A a).2).accounts x = m.accounts x := by
  rw [deposit_absent m A a hA]
  refine ⟨rfl, by simp [Accounts.insert, mapInsert], ?_⟩
  intro x hx
  simp [Accounts.insert, mapInsert, hx]

theorem c7_witness :
    ((Accounts.new.deposit "bob" 100).1 = Except.ok (Tx.Deposit "bob" 100))
      ∧ ((Accounts.new.deposit "bob" 100).2).accounts "bob" = some 100 :=
  ⟨(c7_deposit_new_account Accounts.new "bob" 100 (by decide)).1,
   (c7_deposit_new_account Accounts.new "bob" 100 (by decide)).2.1⟩

/-- C8: a withdraw of a from an existing account A with balance b, when
    a is at most b, sets the balance of A to b minus a, returns the record
    Withdraw A a, and changes the entry of no other account. -/
theorem c8_withdraw_success (m : Accounts) (A : String) (b a : Nat)
    (hA : m.accounts A = some b) (hle : a ≤ b) :
    (m.withdraw A a).1 = Except.ok (Tx.Withdraw A a)
      ∧ ((m.withdraw A a).2).accounts A = some (b - a)
      ∧ ∀ x, x ≠ A → ((m.withdraw A a).2).accounts x = m.accounts x := by
  rw [withdraw_ok m A b a hA hle]
  refine ⟨rfl, by simp [Accounts.insert, mapInsert], ?_⟩
  intro x hx
  simp [Accounts.insert, mapInsert, hx]

theorem c8_witness :
    (((Accounts.new.insert "test_account" 100).withdraw "test_account" 100).1
        = Except.ok (Tx.Withdraw "test_account" 100))
      ∧ (((Accounts.new.insert "test_account" 100).withdraw
          "test_account" 100).2).accounts "test_account" = some (100 - 100) :=
  ⟨(c8_withdraw_success (Accounts.new.insert "test_account" 100)
      "test_account" 100 100 (by decide) (by decide)).1,
   (c8_withdraw_success (Accounts.new.insert "test_account" 100)
      "test_account" 100 100 (by decide) (by decide)).2.1⟩

/-- C9: a withdraw of a from an existing account A with balance b, when
    a exceeds b, leaves the whole map and in particular the balance of A
    untouched and returns UnderFunded A a, the error carrying the requested
    amount a. -/
theorem c9_withdraw_underflow (m : Accounts) (A : String) (b a : Nat)
    (hA : m.accounts A = some b) (hgt : b < a) :
    m.withdraw A a = (Except.error (ApplicationError.UnderFunded A a), m)
      ∧ ((m.withdraw A a).2).accounts A = some b := by
  have h := withdraw_underflow_eq m A b a hA hgt
  exact ⟨h, by rw [h]; exact hA⟩

theorem c9_witness :
    ((Accounts.new.insert "test_account" 50).withdraw "test_account" 100
        = (Except.error (ApplicationError.UnderFunded "test_account" 100),
           Accounts.new.insert "test_account" 50))
      ∧ (((Accounts.new.insert "test_account" 50).withdraw
          "test_account" 100).2).accounts "test_account" = some 50 :=
  c9_withdraw_underflow (Accounts.new.insert "test_account" 50)
    "test_account" 50 100 (by decide) (by decide)

/-- C1: if inside send the withdraw of a from S succeeds and the following
    deposit of a into R fails, then the deposit error is an OverFunded
    naming R and a, send returns exactly that error, and the balance of S
    after send equals its value before the call. -/
theorem c1_send_rollback (m : Accounts) (S R : String) (a : Nat)
    (t : Tx) (e : ApplicationError)
    (hw : (m.withdraw S a).1 = Except.ok t)
    (hd : (((m.withdraw S a).2).deposit R a).1 = Except.error e) :
    e = ApplicationError.OverFunded R a
      ∧ ∃ m2, m.send S R a = some (Except.error e, m2)
          ∧ m2.accounts S = m.accounts S := by
  obtain ⟨b, hS, hle, hweq⟩ := withdraw_ok_inv m S a t hw
  rw [hweq] at hd
  obtain ⟨he, ⟨c, hc, hov⟩, -⟩ := deposit_error_inv _ R a e hd
  subst he
  refine ⟨rfl, (m.insert S (b - a)).insert S b,
    send_rollback_eq m S R a b c hS hle hc hov, ?_⟩
  simp [Accounts.insert, mapInsert, hS]

theorem c1_witness :
    (ApplicationError.OverFunded "bob" 50 = ApplicationError.OverFunded "bob" 50)
      ∧ ∃ m2, ((Accounts.new.insert "alice" 50).insert "bob" u64Max).send
            "alice" "bob" 50 = some (Except.error
              (ApplicationError.OverFunded "bob" 50), m2)
          ∧ m2.accounts "alice"
            = ((Accounts.new.insert "alice" 50).insert "bob" u64Max).accounts
                "alice" :=
  c1_send_rollback ((Accounts.new.insert "alice" 50).insert "bob" u64Max)
    "alice" "bob" 50 (Tx.Withdraw "alice" 50)
    (ApplicationError.OverFunded "bob" 50) rfl rfl

/-- C2 counterexample: on the ledger holding only alice with balance 50,
    send from alice to the nonexistent account ghost does not return
    NotFound: the deposit creates ghost and the call succeeds. -/
theorem c2_counterexample :
    ((Accounts.new.insert "alice" 50).accounts "ghost" = none)
      ∧ ((Accounts.new.insert "alice" 50).send "alice" "ghost" 10).map
          Prod.fst
        = some (Except.ok (Tx.Withdraw "alice" 10, Tx.Deposit "ghost" 10)) := by
  exact ⟨rfl, rfl⟩

/-- C2 (amended): a withdraw naming an account X with no entry returns
    NotFound X and mutates nothing, and a send whose sender X has no entry
    returns NotFound X and mutates nothing; a nonexistent recipient does
    not make send fail, so the original claim holds only for the sender
    side of send. -/
theorem c2_notfound_no_mutation (m : Accounts) (X R : String) (a : Nat)
    (h : m.accounts X = none) :
    m.withdraw X a = (Except.error (ApplicationError.NotFound X), m)
      ∧ m.send X R a = some (Except.error (ApplicationError.NotFound X), m) :=
  ⟨withdraw_notfound m X a h, send_notfound m X R a h⟩

theorem c2_witness :
    ((Accounts.new.insert "bob" 0).withdraw "ghost" 10
        = (Except.error (ApplicationError.NotFound "ghost"),
           Accounts.new.insert "bob" 0))
      ∧ ((Accounts.new.insert "bob" 0).send "ghost" "bob" 10
        = some (Except.error (ApplicationError.NotFound "ghost"),
           Accounts.new.insert "bob" 0)) :=
  c2_notfound_no_mutation (Accounts.new.insert "bob" 0) "ghost" "bob" 10
    (by decide)

/-- C4: a send of a from S to a distinct R, when S holds at least a and
    the balance of R (zero when absent) plus a fits in u64, returns the
    records Withdraw S a and Deposit R a, debits S by a, credits R by a,
    and changes the entry of no other account. -/
theorem c4_send_success (m : Accounts) (S R : String) (a bS : Nat)
    (hSR : S ≠ R) (hS : m.accounts S = some bS) (ha : a ≤ bS)
    (hR : ∀ bR, m.accounts R = some bR → bR + a ≤ u64Max) :
    ∃ m2 : Accounts,
      m.send S R a = some (Except.ok (Tx.Withdraw S a, Tx.Deposit R a), m2)
        ∧ m2.accounts S = some (bS - a)
        ∧ m2.accounts R = some ((m.accounts R).getD 0 + a)
        ∧ ∀ x, x ≠ S → x ≠ R → m2.accounts x = m.accounts x := by
  have hRS : R ≠ S := Ne.symm hSR
  have hm1R : (m.insert S (bS - a)).accounts R = m.accounts R := by
    simp [Accounts.insert, mapInsert, hRS]
  rcases hmR : m.accounts R with _ | bR
  · have hd := deposit_absent (m.insert S (bS - a)) R a (hm1R.trans hmR)
    refine ⟨(m.insert S (bS - a)).insert R a,
      send_deposit_ok_eq m S R a bS hS ha _ _ hd, ?_, ?_, ?_⟩
    · simp [Accounts.insert, mapInsert, hSR]
    · simp [Accounts.insert, mapInsert]
    · intro x hxS hxR
      simp [Accounts.insert, mapInsert, hxS, hxR]
  · have hfit : bR + a ≤ u64Max := hR bR hmR
    have hd := deposit_ok (m.insert S (bS - a)) R bR a (hm1R.trans hmR) hfit
    refine ⟨(m.insert S (bS - a)).insert R (bR + a),
      send_deposit_ok_eq m S R a bS hS ha _ _ hd, ?_, ?_, ?_⟩
    · simp [Accounts.insert, mapInsert, hSR]
    · simp [Accounts.insert, mapInsert]
    · intro x hxS hxR
      simp [Accounts.insert, mapInsert, hxS, hxR]

theorem c4_witness :
    ∃ m2 : Accounts,
      ((Accounts.new.insert "alice" 50).insert "bob" 0).send "alice" "bob" 50
          = some (Except.ok (Tx.Withdraw "alice" 50, Tx.Deposit "bob" 50), m2)
        ∧ m2.accounts "alice" = some (50 - 50)
        ∧ m2.accounts "bob"
          = some ((((Accounts.new.insert "alice" 50).insert "bob" 0).accounts
              "bob").getD 0 + 50)
        ∧ ∀ x, x ≠ "alice" → x ≠ "bob" →
            m2.accounts x
              = ((Accounts.new.insert "alice" 50).insert "bob" 0).accounts x :=
  c4_send_success ((Accounts.new.insert "alice" 50).insert "bob" 0)
    "alice" "bob" 50 50 (by decide) (by decide) (by decide)
    (by intro bR h; simp [Accounts.insert, mapInsert] at h; simp [← h]; decide)

/-- C3: every call to deposit, withdraw or send that returns an error
    leaves every entry of the account map, and so the set of existing
    accounts, exactly as it was before the call. -/
theorem c3_failure_atomicity (m : Accounts) (s r : String) (a : Nat) :
    (∀ e, (m.deposit s a).1 = Except.error e →
        ∀ x, ((m.deposit s a).2).accounts x = m.accounts x)
      ∧ (∀ e, (m.withdraw s a).1 = Except.error e →
        ∀ x, ((m.withdraw s a).2).accounts x = m.accounts x)
      ∧ (∀ e m2, m.send s r a = some (Except.error e, m2) →
        ∀ x, m2.accounts x = m.accounts x) := by
  refine ⟨?_, ?_, ?_⟩
  · intro e h x
    rw [(deposit_error_inv m s a e h).2.2]
  · intro e h x
    rcases hms : m.accounts s with _ | b
    · rw [withdraw_notfound m s a hms]
    · rcases Nat.lt_or_ge b a with hlt | hge
      · rw [withdraw_underflow_eq m s b a hms hlt]
      · rw [withdraw_ok m s b a hms hge] at h
        exact absurd h (by simp)
  · intro e m2 hsend x
    rcases hms : m.accounts s with _ | b
    · rw [send_notfound m s r a hms] at hsend
      simp only [Option.some.injEq, Prod.mk.injEq] at hsend
      rw [← hsend.2]
    · rcases Nat.lt_or_ge b a with hlt | hge
      · rw [send_withdraw_underflow_eq m s r a b hms hlt] at hsend
        simp only [Option.some.injEq, Prod.mk.injEq] at hsend
        rw [← hsend.2]
      · rcases hd : (m.insert s (b - a)).deposit r a with ⟨res, md⟩
        rcases res with e' | t
        · have h1 : ((m.insert s (b - a)).deposit r a).1 = Except.error e' :=
            by rw [hd]
          obtain ⟨he', ⟨c, hc, hov⟩, -⟩ := deposit_error_inv _ r a e' h1
          rw [send_rollback_eq m s r a b c hms hge hc hov] at hsend
          simp only [Option.some.injEq, Prod.mk.injEq] at hsend
          rw [← hsend.2]
          by_cases hx : x = s
          · subst hx
            simp [Accounts.insert, mapInsert, hms]
          · simp [Accounts.insert, mapInsert, hx]
        · rw [send_deposit_ok_eq m s r a b hms hge t md hd] at hsend
          simp at hsend

theorem c3_witness :
    ((Accounts.new.insert "bob" 100).withdraw "bob" 150).2.accounts "bob"
      = (Accounts.new.insert "bob" 100).accounts "bob" :=
  (c3_failure_atomicity (Accounts.new.insert "bob" 100) "bob" "carol"
    150).2.1 (ApplicationError.UnderFunded "bob" 150) rfl "bob"

/-- C10: a deposit can only ever fail with an OverFunded naming the signer
    and the attempted amount, and only on an account that already exists;
    neither deposit nor withdraw ever removes an entry; and send always
    yields a result, so its fallback branch for a non OverFunded deposit
    error and the panic of the unwrap on its rollback path are never
    reached. -/
theorem c10_deposit_error_shape_send_total :
    (∀ (m : Accounts) (s : String) (a : Nat) (e : ApplicationError),
        (m.deposit s a).1 = Except.error e →
          e = ApplicationError.OverFunded s a ∧ (m.accounts s).isSome = true)
      ∧ (∀ (m : Accounts) (s k : String) (a : Nat),
        (m.accounts k).isSome = true →
          (((m.deposit s a).2).accounts k).isSome = true
            ∧ (((m.withdraw s a).2).accounts k).isSome = true)
      ∧ (∀ (m : Accounts) (s r : String) (a : Nat),
        (m.send s r a).isSome = true) := by
  refine ⟨?_, ?_, ?_⟩
  · intro m s a e h
    obtain ⟨he, ⟨b, hb, -⟩, -⟩ := deposit_error_inv m s a e h
    exact ⟨he, by simp [hb]⟩
  · intro m s k a hk
    constructor
    · rcases hms : m.accounts s with _ | b
      · rw [deposit_absent m s a hms]
        by_cases hx : k = s <;> simp [Accounts.insert, mapInsert, hx, hk]
      · rcases le_or_lt (b + a) u64Max with hle | hgt
        · rw [deposit_ok m s b a hms hle]
          by_cases hx : k = s <;> simp [Accounts.insert, mapInsert, hx, hk]
        · rw [deposit_overflow_eq m s b a hms hgt]
          exact hk
    · rcases hms : m.accounts s with _ | b
      · rw [withdraw_notfound m s a hms]
        exact hk
      · rcases Nat.lt_or_ge b a with hlt | hge
        · rw [withdraw_underflow_eq m s b a hms hlt]
          exact hk
        · rw [withdraw_ok m s b a hms hge]
          by_cases hx : k = s <;> simp [Accounts.insert, mapInsert, hx, hk]
  · intro m s r a
    rcases hms : m.accounts s with _ | b
    · rw [send_notfound m s r a hms]
      rfl
    · rcases Nat.lt_or_ge b a with hlt | hge
      · rw [send_withdraw_underflow_eq m s r a b hms hlt]
        rfl
      · rcases hd : (m.insert s (b - a)).deposit r a with ⟨res, md⟩
        rcases res with e' | t
        · have h1 : ((m.insert s (b - a)).deposit r a).1 = Except.error e' :=
            by rw [hd]
          obtain ⟨he', ⟨c, hc, hov⟩, -⟩ := deposit_error_inv _ r a e' h1
          rw [send_rollback_eq m s r a b c hms hge hc hov]
          rfl
        · rw [send_deposit_ok_eq m s r a b hms hge t md hd]
          rfl

theorem c10_witness :
    (ApplicationError.OverFunded "alice" 1 = ApplicationError.OverFunded
          "alice" 1
      ∧ ((Accounts.new.insert "alice" u64Max).accounts "alice").isSome = true)
      ∧ (((Accounts.new.insert "alice" u64Max).send "alice" "bob" 1).isSome
        = true) :=
  ⟨c10_deposit_error_shape_send_total.1 (Accounts.new.insert "alice" u64Max)
      "alice" 1 (ApplicationError.OverFunded "alice" 1) rfl,
   c10_deposit_error_shape_send_total.2.2 (Accounts.new.insert "alice" u64Max)
      "alice" "bob" 1⟩
